import Mathlib

/-!
Verification of the artist-recommendation pipeline in
`Scripts/artist_recommender.py` (Music Manager for Plex).

The pandas program is shallowly embedded: a dataframe is a list of named
columns over row-aligned cells, a cell is a string, a number or NaN/None.
Floating-point numbers are modelled by rationals and `np.log10` by
`Real.logb 10` (float rounding and NaN propagation are abstracted to exact
real arithmetic).  Unicode-sensitive character classes (`\w`, `\s`,
`str.lower`) are modelled by their ASCII fragments.
-/

namespace Plex

/-- A pandas cell: a string, a number (floats modelled as rationals), or
NaN/None. -/
inductive Val where
  | str (s : String)
  | num (q : ℚ)
  | null
deriving DecidableEq

/-- The regex class `\w` (ASCII fragment): letters, digits, underscore. -/
def isWordChar (c : Char) : Bool := c.isAlpha || c.isDigit || c == '_'

/-- The regex class `\s` (ASCII fragment), as used by `str.strip` and the
split pattern. -/
def isWS (c : Char) : Bool :=
  c == ' ' || c == '\t' || c == '\n' || c == '\r' || c == '\x0b' || c == '\x0c'

/-- The negative character class `[^\w\s]` of the `re.sub` pattern in
`clean_key`: matches a character that is neither a word character nor
whitespace. -/
def nonWordSpace (c : Char) : Bool := !(isWordChar c || isWS c)

/-- Python `str.strip()`: drop leading and trailing whitespace. -/
def trimWs (l : List Char) : List Char :=
  ((l.dropWhile isWS).reverse.dropWhile isWS).reverse

/-- Source `clean_key(text)`: for a non-string, return `""`; for a string,
lowercase it, delete every character matching `[^\w\s]` (the `re.sub`), and
strip surrounding whitespace. -/
def clean_key : Val → String
  | .str s => String.mk (trimWs ((s.data.map Char.toLower).filter fun c => !(nonWordSpace c)))
  | _ => ""

/-- Decimal digit string to a natural number. -/
def digitsVal (l : List Char) : ℕ := l.foldl (fun n c => 10 * n + (c.toNat - 48)) 0

/-- Numeric parsing performed by `pd.to_numeric(errors=coerce)` on a string:
optional sign, then decimal digits with an optional fractional part,
surrounding whitespace tolerated; anything else fails.  (Scientific notation
is accepted by pandas but not modelled; no claim depends on it.) -/
def parseNum (s : String) : Option ℚ :=
  let l := trimWs s.data
  let sgn : Bool × List Char :=
    match l with
    | '-' :: r => (true, r)
    | '+' :: r => (false, r)
    | _ => (false, l)
  let ip := sgn.2.takeWhile Char.isDigit
  let r1 := sgn.2.dropWhile Char.isDigit
  match r1 with
  | [] =>
      if ip = [] then none
      else some ((if sgn.1 then -1 else 1) * (digitsVal ip : ℚ))
  | '.' :: r2 =>
      let fp := r2.takeWhile Char.isDigit
      let r3 := r2.dropWhile Char.isDigit
      if r3 = [] ∧ (ip ≠ [] ∨ fp ≠ []) then
        some ((if sgn.1 then -1 else 1) *
          ((digitsVal ip : ℚ) + (digitsVal fp : ℚ) / 10 ^ fp.length))
      else none
  | _ => none

/-- Splitting on the regex `,\s*`, scanning left to right: a comma ends the
current token and starts skipping the whitespace that follows it (`skip`);
accumulated characters are kept in reverse. -/
def splitCommaWsAux (skip : Bool) (acc : List Char) : List Char → List String
  | [] => [String.mk acc.reverse]
  | c :: rest =>
    if c = ',' then String.mk acc.reverse :: splitCommaWsAux true [] rest
    else if skip && isWS c then splitCommaWsAux true acc rest
    else splitCommaWsAux false (c :: acc) rest

/-- Model of `re.split` on the pattern comma-followed-by-optional-whitespace: each
comma plus the whitespace following it is a separator; whitespace not
preceded by a comma is kept. -/
def splitCommaWs (l : List Char) : List String := splitCommaWsAux false [] l

/-- First-occurrence deduplication under a key function, carrying the set of
keys already seen. -/
def dedupByAux {α β : Type} [DecidableEq β] (key : α → β) (seen : List β) :
    List α → List α
  | [] => []
  | x :: xs =>
    if key x ∈ seen then dedupByAux key seen xs
    else x :: dedupByAux key (key x :: seen) xs

/-- First-occurrence deduplication under a key function; models
`drop_duplicates(col)`, `.unique()` and `set(...)`. -/
def dedupBy {α β : Type} [DecidableEq β] (key : α → β) (l : List α) : List α :=
  dedupByAux key [] l

theorem mem_of_mem_dedupByAux {α β : Type} [DecidableEq β] (key : α → β) :
    ∀ (seen : List β) (l : List α) (a : α), a ∈ dedupByAux key seen l → a ∈ l
  | _, [], _, h => by simp [dedupByAux] at h
  | seen, x :: xs, a, h => by
      rw [dedupByAux] at h
      by_cases hk : key x ∈ seen
      · rw [if_pos hk] at h
        exact List.mem_cons_of_mem x (mem_of_mem_dedupByAux key seen xs a h)
      · rw [if_neg hk] at h
        rcases List.mem_cons.mp h with h1 | h2
        · exact h1 ▸ List.mem_cons_self _ _
        · exact List.mem_cons_of_mem x (mem_of_mem_dedupByAux key _ xs a h2)

theorem mem_of_mem_dedupBy {α β : Type} [DecidableEq β] (key : α → β)
    (l : List α) (a : α) (h : a ∈ dedupBy key l) : a ∈ l :=
  mem_of_mem_dedupByAux key [] l a h

/-- A pandas DataFrame: named columns over row-aligned cells. -/
structure DataFrame where
  cols : List String
  rows : List (List Val)
deriving DecidableEq

/-- Column extraction by name (`df[name]`); `none` models the KeyError. -/
def DataFrame.col? (df : DataFrame) (name : String) : Option (List Val) :=
  match df.cols.findIdx? (· == name) with
  | some i => some (df.rows.map fun r => r.getD i Val.null)
  | none => none

/-- The in-place column insertion of the source when the genre column is
absent: `df[quote Artist_Genres] = ""` broadcasts the empty string. -/
def addEmptyGenres (df : DataFrame) : DataFrame :=
  { cols := df.cols ++ ["Artist_Genres"], rows := df.rows.map fun r => r ++ [Val.str ""] }

/-- Lines 17-18 of the source: ensure `Artist_Genres` exists to avoid a
KeyError.  When the column is absent this mutates the caller's dataframe. -/
def ensureGenres (df : DataFrame) : DataFrame :=
  if "Artist_Genres" ∈ df.cols then df else addEmptyGenres df

/-- One selected input row: the four columns the pipeline projects. -/
structure SRaw where
  artist : Val
  similar : Val
  plays : Val
  genres : Val
deriving DecidableEq

/-- Row-aligns the four projected columns. -/
def zipRows : List Val → List Val → List Val → List Val → List SRaw
  | a :: as, s :: ss, p :: ps, g :: gs => ⟨a, s, p, g⟩ :: zipRows as ss ps gs
  | _, _, _, _ => []

/-- The projection `df[[Artist, Similar_Artists, Total_Plays, Artist_Genres]]`;
a missing column is a KeyError carrying that column's name. -/
def selectCols (df : DataFrame) : Except String (List SRaw) :=
  match df.col? "Artist" with
  | none => .error "Artist"
  | some as =>
    match df.col? "Similar_Artists" with
    | none => .error "Similar_Artists"
    | some ss =>
      match df.col? "Total_Plays" with
      | none => .error "Total_Plays"
      | some ps =>
        match df.col? "Artist_Genres" with
        | none => .error "Artist_Genres"
        | some gs => .ok (zipRows as ss ps gs)

/-- Numeric reading of a cell, as in `pd.to_numeric(errors=coerce)`:
numbers pass through, strings are parsed, NaN/None and parse failures give
NaN (`none`). -/
def parseVal : Val → Option ℚ
  | .num q => some q
  | .str s => parseNum s
  | .null => none

/-- Model of `pd.to_numeric(df[Total_Plays], errors=coerce).fillna(0)`. -/
def toPlays (v : Val) : ℚ := (parseVal v).getD 0

/-- Model of `fillna("")` on the genre column. -/
def fillGenres : Val → Val
  | .null => .str ""
  | v => v

/-- A deduplicated library-artist record (the rows of `artist_df`). -/
structure ARow where
  artist : Val
  similar : Val
  plays : ℚ
  genres : Val
deriving DecidableEq

/-- Library Indexer (lines 20-26): dedup by Artist (first occurrence wins),
coerce plays, fill genres, then drop rows with a null artist. -/
def libraryArtistsOf (rs : List SRaw) : List ARow :=
  ((dedupBy (fun r : SRaw => r.artist) rs).map fun r =>
    { artist := r.artist, similar := r.similar, plays := toPlays r.plays,
      genres := fillGenres r.genres : ARow }).filter fun r => !(r.artist == Val.null)

/-- Model of `set(artist_df[Artist].apply(clean_key).unique())`: the canonical key set
of the library, as a duplicate-free list. -/
def libraryCleanOf (rs : List SRaw) : List String :=
  dedupBy id ((libraryArtistsOf rs).map fun r => clean_key r.artist)

/-- One exploded candidate row of `recs`. -/
structure CRow where
  name : String
  artist : Val
  plays : ℚ
  genres : Val
deriving DecidableEq

/-- Model of `str.split` on the comma pattern followed by `explode`: a string cell becomes one row
per split component; a non-string cell becomes NaN and is dropped by the
subsequent `notna()` filter, modelled by the empty expansion. -/
def explodeRow (r : ARow) : List CRow :=
  match r.similar with
  | .str s => (splitCommaWs s.data).map fun nm =>
      { name := nm, artist := r.artist, plays := r.plays, genres := r.genres : CRow }
  | _ => []

/-- Source `clean_key` applied to a suggested name (the `suggested_key` column). -/
def suggested_key (c : CRow) : String := clean_key (Val.str c.name)

/-- Candidate Expander/Filter (lines 32-40): explode the similar-artists
lists, drop empty names, and keep only candidates whose canonical key is not
in the library key set (the fuzzy filter). -/
def candidatesOf (rs : List SRaw) : List CRow :=
  ((((libraryArtistsOf rs).map explodeRow).flatten.filter fun c => !(c.name == "")).filter
    fun c => !(decide (suggested_key c ∈ libraryCleanOf rs)))

/-- One output row, fields in the source's final column order
(`Missing_Artist, Related_Library_Artists, Recommendation_Count,
Related_Library_Artists_Total_Play_Count, Related_Artist_Genres`); the
display join of `Related_Library_Artists` and the `Priority_Score` column
are modelled by the functions below. -/
structure OutRow where
  missing_artist : String
  related_library_artists : List Val
  recommendation_count : ℕ
  related_total_plays : ℚ
  related_artist_genres : String
deriving DecidableEq

/-- Splitting on a plain comma (Python `split(",")`). -/
def splitPlainAux (acc : List Char) : List Char → List String
  | [] => [String.mk acc.reverse]
  | c :: rest =>
    if c = ',' then String.mk acc.reverse :: splitPlainAux [] rest
    else splitPlainAux (c :: acc) rest

def splitPlain (l : List Char) : List String := splitPlainAux [] l

/-- Python `s.strip()` on a string value. -/
def strTrim (s : String) : String := String.mk (trimWs s.data)

/-- Python `", ".join(l)`. -/
def joinSep (sep : String) : List String → String
  | [] => ""
  | [x] => x
  | x :: xs => x ++ (sep ++ joinSep sep xs)

/-- Code-point lexicographic order on character lists (Python string `<=`). -/
def listCharLe : List Char → List Char → Bool
  | [], _ => true
  | _ :: _, [] => false
  | a :: as, b :: bs =>
    if a.toNat < b.toNat then true
    else if b.toNat < a.toNat then false
    else listCharLe as bs

/-- Python `sorted(key=str.lower)` comparison: compare lowercased strings. -/
def lowerLe (a b : String) : Prop :=
  listCharLe (a.data.map Char.toLower) (b.data.map Char.toLower) = true

instance : DecidableRel lowerLe := fun a b => by unfold lowerLe; infer_instance

/-- Source `get_unique_genres`: pool the comma-split, trimmed, non-empty
genre tags of the group, dedup, sort case-insensitively, join.  (Python
iterates a hash set before the stable sort, so the relative order of tags
equal under lowercasing is unspecified; encounter order stands in for it.) -/
def get_unique_genres (gs : List Val) : String :=
  let tags := gs.foldl (fun acc g =>
    match g with
    | .str s =>
        if strTrim s ≠ "" then
          acc ++ ((splitPlain s.data).map strTrim).filter fun t => t ≠ ""
        else acc
    | _ => acc) []
  joinSep ", " (List.insertionSort lowerLe (dedupBy id tags))

/-- Python string order, for pandas' sorted `groupby` keys. -/
def strLe (a b : String) : Prop := listCharLe a.data b.data = true

instance : DecidableRel strLe := fun a b => by unfold strLe; infer_instance

/-- The group keys of `groupby(Similar_Artists)`, in pandas' sorted-key
order. -/
def groupKeysOf (cs : List CRow) : List String :=
  List.insertionSort strLe (dedupBy id (cs.map fun c => c.name))

/-- The aggregation of one group (lines 53-58): distinct contributing
artists in first-appearance order, row count, play-count sum, merged
genres. -/
def aggGroup (cs : List CRow) (k : String) : OutRow :=
  let g := cs.filter fun c => c.name == k
  { missing_artist := k
    related_library_artists := dedupBy id (g.map fun c => c.artist)
    recommendation_count := g.length
    related_total_plays := (g.map fun c => c.plays).sum
    related_artist_genres := get_unique_genres (g.map fun c => c.genres) }

/-- Score formula `Priority_Score = Recommendation_Count * np.log10(Related_Total_Plays + 1)`
(line 61-63), with `np.log10` modelled by `Real.logb 10`. -/
noncomputable def priorityScore (r : OutRow) : ℝ :=
  (r.recommendation_count : ℝ) * Real.logb 10 ((r.related_total_plays : ℝ) + 1)

/-- Rational sort key: `priorityScore r = Real.logb 10 (scoreBase r)`
(proved below), which lets the score comparison of `sort_values` be decided
exactly in ℚ. -/
def scoreBase (r : OutRow) : ℚ :=
  |r.related_total_plays + 1| ^ r.recommendation_count

/-- Decides `Real.logb 10 n ≤ Real.logb 10 m` for non-negative rationals
(`Real.log 0 = 0` in Mathlib, hence the case split at zero). -/
def logGeB (m n : ℚ) : Bool :=
  if m = 0 then (if n ≤ 1 then true else false)
  else if n = 0 then (if 1 ≤ m then true else false)
  else (if n ≤ m then true else false)

/-- Boolean comparator of `sort_values(Priority_Score, ascending=False)`:
row `a` may precede row `b` iff its score is at least as large. -/
def scoreGeB (a b : OutRow) : Bool := logGeB (scoreBase a) (scoreBase b)

/-- The descending-score order relation used for sorting. -/
def scoreRel (a b : OutRow) : Prop := scoreGeB a b = true

instance : DecidableRel scoreRel := fun a b => by unfold scoreRel; infer_instance

/-- Aggregator/Scorer plus the final sort: one output row per group key,
sorted by descending priority score (pandas' quicksort is unstable, so tie
order is unspecified; insertion sort fixes one admissible order). -/
def scored (cs : List CRow) : List OutRow :=
  List.insertionSort scoreRel ((groupKeysOf cs).map (aggGroup cs))

/-- The whole pipeline after column selection. -/
def pipeline (rs : List SRaw) : List OutRow := scored (candidatesOf rs)

/-- Source `get_recommendations(df)`: ensure the genre column, project the
four columns (KeyError on a missing one), then index, expand, filter,
aggregate, score and sort. -/
def get_recommendations (df : DataFrame) : Except String (List OutRow) :=
  (selectCols (ensureGenres df)).map pipeline

/-- The caller-visible state of the input dataframe after the call: the
source mutates `df` only through the `Artist_Genres` insertion. -/
def get_recommendations_dfState (df : DataFrame) : DataFrame := ensureGenres df

/-- The selected rows of an input (empty when selection fails). -/
def selectedRows (df : DataFrame) : List SRaw :=
  match selectCols (ensureGenres df) with
  | .ok rs => rs
  | .error _ => []

/-- The retained LibraryArtist records of an input. -/
def libraryArtistsDF (df : DataFrame) : List ARow := libraryArtistsOf (selectedRows df)

/-- The surviving candidate rows of an input. -/
def candidatesDF (df : DataFrame) : List CRow := candidatesOf (selectedRows df)

/-- The library's canonical key set of an input. -/
def libraryClean (df : DataFrame) : List String := libraryCleanOf (selectedRows df)

theorem one_lt_ten : (1 : ℝ) < 10 := by norm_num

/-- The priority score is the base-10 log of the rational sort key. -/
theorem priorityScore_eq_logb (r : OutRow) :
    priorityScore r = Real.logb 10 ((scoreBase r : ℚ) : ℝ) := by
  have hcast : ((scoreBase r : ℚ) : ℝ) =
      |(r.related_total_plays : ℝ) + 1| ^ r.recommendation_count := by
    unfold scoreBase
    push_cast
    ring
  rw [hcast, Real.logb_pow, Real.logb_abs, priorityScore]

theorem scoreBase_nonneg (r : OutRow) : 0 ≤ scoreBase r :=
  pow_nonneg (abs_nonneg _) _

theorem itetf_eq_true (P : Prop) [Decidable P] : (if P then true else false) = true ↔ P := by
  by_cases h : P <;> simp [h]

/-- The boolean comparator decides the real log comparison on non-negative
rationals. -/
theorem logGeB_iff (m n : ℚ) (hm : 0 ≤ m) (hn : 0 ≤ n) :
    logGeB m n = true ↔ Real.logb 10 (n : ℝ) ≤ Real.logb 10 (m : ℝ) := by
  unfold logGeB
  by_cases h0 : m = 0
  · rw [if_pos h0, h0, Rat.cast_zero, Real.logb_zero,
      Real.logb_nonpos_iff' one_lt_ten (by exact_mod_cast hn), itetf_eq_true]
    exact_mod_cast Iff.rfl
  · rw [if_neg h0]
    have hm0 : (0 : ℝ) < (m : ℝ) := by exact_mod_cast lt_of_le_of_ne hm (Ne.symm h0)
    by_cases h1 : n = 0
    · rw [if_pos h1, h1, Rat.cast_zero, Real.logb_zero,
        Real.logb_nonneg_iff one_lt_ten hm0, itetf_eq_true]
      exact_mod_cast Iff.rfl
    · rw [if_neg h1, itetf_eq_true]
      have hn0 : (0 : ℝ) < (n : ℝ) := by exact_mod_cast lt_of_le_of_ne hn (Ne.symm h1)
      rw [Real.logb_le_logb one_lt_ten hn0 hm0]
      exact_mod_cast Iff.rfl

/-- The sorting comparator agrees with the descending comparison of real
priority scores. -/
theorem scoreGeB_iff (a b : OutRow) :
    scoreGeB a b = true ↔ priorityScore b ≤ priorityScore a := by
  rw [scoreGeB, logGeB_iff _ _ (scoreBase_nonneg a) (scoreBase_nonneg b),
    priorityScore_eq_logb, priorityScore_eq_logb]

theorem scoreRel_iff (a b : OutRow) :
    scoreRel a b ↔ priorityScore b ≤ priorityScore a := scoreGeB_iff a b

instance : IsTotal OutRow scoreRel :=
  ⟨fun a b => by
    rw [scoreRel_iff, scoreRel_iff]
    exact (le_total (priorityScore b) (priorityScore a)).imp id id⟩

instance : IsTrans OutRow scoreRel :=
  ⟨fun a b c hab hbc => by
    rw [scoreRel_iff] at hab hbc ⊢
    exact le_trans hbc hab⟩

/-- A successful run is the pipeline applied to the selected rows. -/
theorem run_ok_eq (df : DataFrame) (rows : List OutRow)
    (hok : get_recommendations df = .ok rows) :
    rows = pipeline (selectedRows df) := by
  unfold get_recommendations at hok
  cases h : selectCols (ensureGenres df) with
  | error e => rw [h] at hok; simp [Except.map] at hok
  | ok rs =>
      rw [h] at hok
      simp only [Except.map, Except.ok.injEq] at hok
      rw [← hok]
      simp [selectedRows, h]

theorem mem_scored (cs : List CRow) (r : OutRow) (h : r ∈ scored cs) :
    ∃ k, k ∈ groupKeysOf cs ∧ r = aggGroup cs k := by
  unfold scored at h
  rw [List.mem_insertionSort] at h
  rcases List.mem_map.mp h with ⟨k, hk, he⟩
  exact ⟨k, hk, he.symm⟩

theorem mem_groupKeys (cs : List CRow) (k : String) (h : k ∈ groupKeysOf cs) :
    ∃ c, c ∈ cs ∧ c.name = k := by
  unfold groupKeysOf at h
  rw [List.mem_insertionSort] at h
  rcases List.mem_map.mp (mem_of_mem_dedupBy id _ _ h) with ⟨c, hc, he⟩
  exact ⟨c, hc, he⟩

/-- A surviving candidate passed both filters: a non-empty name and a
canonical key outside the library key set. -/
theorem mem_candidates_filter (rs : List SRaw) (c : CRow) (h : c ∈ candidatesOf rs) :
    suggested_key c ∉ libraryCleanOf rs ∧ c.name ≠ "" := by
  unfold candidatesOf at h
  have h2 := List.mem_filter.mp h
  have h3 := List.mem_filter.mp h2.1
  constructor
  · simpa using h2.2
  · simpa using h3.2

/-- C1: for every input table, every Missing_Artist value in the output has
a canonical key (the normalizer applied to it) that is absent from the
library's canonical key set, so no normalized-equal spelling of a retained
library artist is ever recommended. -/
theorem C1_fuzzy_filter (df : DataFrame) (rows : List OutRow) (r : OutRow)
    (hok : get_recommendations df = .ok rows) (hr : r ∈ rows) :
    clean_key (Val.str r.missing_artist) ∉ libraryClean df := by
  rw [run_ok_eq df rows hok] at hr
  simp only [pipeline] at hr
  rcases mem_scored _ _ hr with ⟨k, hk, he⟩
  rcases mem_groupKeys _ _ hk with ⟨c, hc, hname⟩
  have hprop := (mem_candidates_filter _ _ hc).1
  rw [he]
  show clean_key (Val.str k) ∉ libraryClean df
  rw [libraryClean, ← hname]
  exact hprop

def dfW1 : DataFrame :=
  ⟨["Artist", "Similar_Artists", "Total_Plays"],
   [[Val.str "Radiohead", Val.str "Thom Yorke, Portishead", Val.str "100"],
    [Val.str "Portishead", Val.str "", Val.str "50"]]⟩

def rW1 : OutRow := ⟨"Thom Yorke", [Val.str "Radiohead"], 1, 100, ""⟩

theorem run_dfW1 : get_recommendations dfW1 = .ok [rW1] := by
  simp +decide [get_recommendations, ensureGenres, addEmptyGenres, selectCols,
    DataFrame.col?, zipRows, pipeline, candidatesOf, libraryArtistsOf,
    libraryCleanOf, dedupBy, dedupByAux, explodeRow, splitCommaWs,
    splitCommaWsAux, suggested_key, clean_key, trimWs, isWS, nonWordSpace,
    isWordChar, toPlays, parseVal, parseNum, digitsVal, fillGenres, scored,
    groupKeysOf, aggGroup, get_unique_genres, splitPlain, splitPlainAux,
    strTrim, joinSep, listCharLe, strLe, lowerLe, List.insertionSort,
    List.orderedInsert, scoreRel, scoreGeB, logGeB, scoreBase, Except.map,
    dfW1, rW1]

theorem C1_fuzzy_filter_witness :
    get_recommendations dfW1 = .ok [rW1] ∧ rW1 ∈ [rW1] ∧
      clean_key (Val.str rW1.missing_artist) ∉ libraryClean dfW1 :=
  ⟨run_dfW1, by decide, C1_fuzzy_filter dfW1 [rW1] rW1 run_dfW1 (by decide)⟩

/-- The normalizer as the spec words it (§4.1): if the input is not a
string, return the empty string; otherwise lowercase it, remove every
character that is not a letter, digit, underscore, or whitespace, then trim
leading/trailing whitespace. -/
def normalize_spec : Val → String
  | .str s => String.mk (trimWs ((s.data.map Char.toLower).filter fun c =>
      c.isAlpha || c.isDigit || c == '_' || isWS c))
  | _ => ""

/-- C2: the source normalizer `clean_key` behaves exactly as the spec
describes: empty string on non-strings, otherwise lowercase, strip every
character that is not a letter, digit, underscore or whitespace, and trim;
it always returns a string (it is total). -/
theorem C2_normalizer (v : Val) : clean_key v = normalize_spec v := by
  cases v with
  | str s =>
      simp only [clean_key, normalize_spec]
      congr 2
      apply List.filter_congr
      intro c _
      simp [nonWordSpace, isWordChar, Bool.or_assoc]
  | num q => rfl
  | null => rfl

/-- C3: every output row's priority score is its recommendation count times
`log10(related_total_plays + 1)`; when the play sum is 0 the score is 0
whatever the count. -/
theorem C3_priority_score (df : DataFrame) (rows : List OutRow) (r : OutRow)
    (hok : get_recommendations df = .ok rows) (hr : r ∈ rows) :
    priorityScore r =
        (r.recommendation_count : ℝ) * Real.logb 10 ((r.related_total_plays : ℝ) + 1) ∧
      (r.related_total_plays = 0 → priorityScore r = 0) := by
  refine ⟨rfl, fun h0 => ?_⟩
  unfold priorityScore
  rw [h0]
  norm_num

def dfW3 : DataFrame :=
  ⟨["Artist", "Similar_Artists", "Total_Plays"],
   [[Val.str "A", Val.str "X", Val.str "abc"]]⟩

def rW3 : OutRow := ⟨"X", [Val.str "A"], 1, 0, ""⟩

theorem run_dfW3 : get_recommendations dfW3 = .ok [rW3] := by
  simp +decide [get_recommendations, ensureGenres, addEmptyGenres, selectCols,
    DataFrame.col?, zipRows, pipeline, candidatesOf, libraryArtistsOf,
    libraryCleanOf, dedupBy, dedupByAux, explodeRow, splitCommaWs,
    splitCommaWsAux, suggested_key, clean_key, trimWs, isWS, nonWordSpace,
    isWordChar, toPlays, parseVal, parseNum, digitsVal, fillGenres, scored,
    groupKeysOf, aggGroup, get_unique_genres, splitPlain, splitPlainAux,
    strTrim, joinSep, listCharLe, strLe, lowerLe, List.insertionSort,
    List.orderedInsert, scoreRel, scoreGeB, logGeB, scoreBase, Except.map,
    dfW3, rW3]

theorem C3_priority_score_witness :
    get_recommendations dfW3 = .ok [rW3] ∧ rW3 ∈ [rW3] ∧
      (priorityScore rW3 =
          (rW3.recommendation_count : ℝ) * Real.logb 10 ((rW3.related_total_plays : ℝ) + 1) ∧
        (rW3.related_total_plays = 0 → priorityScore rW3 = 0)) :=
  ⟨run_dfW3, by decide, C3_priority_score dfW3 [rW3] rW3 run_dfW3 (by decide)⟩

def dfC4 : DataFrame :=
  ⟨["Artist", "Similar_Artists", "Total_Plays"],
   [[Val.str "A", Val.str "X", Val.str "-1"]]⟩

def aC4 : ARow := ⟨Val.str "A", Val.str "X", -1, Val.str ""⟩

/-- C4 (counterexample): the coercion does not clamp to non-negative: the
raw value `"-1"` parses to `-1`, so the retained LibraryArtist carries a
negative `total_plays`. -/
theorem C4_counterexample : libraryArtistsDF dfC4 = [aC4] ∧ aC4.plays < 0 := by
  constructor
  · simp +decide [libraryArtistsDF, selectedRows, ensureGenres, addEmptyGenres,
      selectCols, DataFrame.col?, zipRows, libraryArtistsOf, dedupBy,
      dedupByAux, toPlays, parseVal, parseNum, digitsVal, trimWs, isWS,
      fillGenres, dfC4, aC4]
  · norm_num [aC4]

/-- C4 (amended): an unparseable `Total_Plays` becomes 0 rather than an
error, and every retained LibraryArtist's `total_plays` is non-negative
provided no raw value parses to a negative number (a parsed negative is
carried through unchanged). -/
theorem C4_amended (df : DataFrame) (r : ARow)
    (hnn : ∀ s ∈ selectedRows df, ∀ q, parseVal s.plays = some q → 0 ≤ q)
    (hr : r ∈ libraryArtistsDF df) : 0 ≤ r.plays := by
  unfold libraryArtistsDF libraryArtistsOf at hr
  have h1 := List.mem_filter.mp hr
  rcases List.mem_map.mp h1.1 with ⟨s, hs, he⟩
  have hs2 := mem_of_mem_dedupBy _ _ _ hs
  rw [← he]
  show 0 ≤ toPlays s.plays
  unfold toPlays
  cases hp : parseVal s.plays with
  | none => simp
  | some q => simpa using hnn s hs2 q hp

def dfW4 : DataFrame :=
  ⟨["Artist", "Similar_Artists", "Total_Plays"],
   [[Val.str "A", Val.str "X", Val.num 5]]⟩

def aW4 : ARow := ⟨Val.str "A", Val.str "X", 5, Val.str ""⟩

theorem lib_dfW4 : libraryArtistsDF dfW4 = [aW4] := by
  simp +decide [libraryArtistsDF, selectedRows, ensureGenres, addEmptyGenres,
    selectCols, DataFrame.col?, zipRows, libraryArtistsOf, dedupBy,
    dedupByAux, toPlays, parseVal, parseNum, digitsVal, trimWs, isWS,
    fillGenres, dfW4, aW4]

theorem sel_dfW4 :
    selectedRows dfW4 = [⟨Val.str "A", Val.str "X", Val.num 5, Val.str ""⟩] := by
  simp +decide [selectedRows, ensureGenres, addEmptyGenres, selectCols,
    DataFrame.col?, zipRows, dfW4]

theorem C4_amended_witness : 0 ≤ aW4.plays := by
  refine C4_amended dfW4 aW4 ?_ (by rw [lib_dfW4]; exact List.mem_singleton.mpr rfl)
  intro s hs q hq
  rw [sel_dfW4] at hs
  rw [List.mem_singleton.mp hs] at hq
  simp only [parseVal, Option.some.injEq] at hq
  rw [← hq]
  norm_num

def dfC5 : DataFrame :=
  ⟨["Artist", "Similar_Artists", "Total_Plays"],
   [[Val.str "A", Val.str "X", Val.num 1]]⟩

/-- C5 (counterexample): on an input without an `Artist_Genres` column the
call mutates the caller's dataframe (it gains that column), so the input is
not left unchanged. -/
theorem C5_counterexample : get_recommendations_dfState dfC5 ≠ dfC5 := by
  decide

/-- C5 (amended): the only in-place mutation of the caller's dataframe is
the `Artist_Genres` insertion: with the column present the input is
unchanged, without it the input gains exactly that column, filled with the
empty string. -/
theorem C5_amended (df : DataFrame) :
    ("Artist_Genres" ∈ df.cols → get_recommendations_dfState df = df) ∧
      ("Artist_Genres" ∉ df.cols → get_recommendations_dfState df = addEmptyGenres df) := by
  unfold get_recommendations_dfState ensureGenres
  constructor
  · intro h; rw [if_pos h]
  · intro h; rw [if_neg h]

def dfW5 : DataFrame :=
  ⟨["Artist", "Similar_Artists", "Total_Plays", "Artist_Genres"],
   [[Val.str "A", Val.str "X", Val.num 1, Val.str "rock"]]⟩

theorem C5_amended_witness :
    get_recommendations_dfState dfW5 = dfW5 ∧
      get_recommendations_dfState dfC5 = addEmptyGenres dfC5 :=
  ⟨(C5_amended dfW5).1 (by decide), (C5_amended dfC5).2 (by decide)⟩

def dfC6 : DataFrame :=
  ⟨["Artist", "Similar_Artists", "Total_Plays"],
   [[Val.str "A", Val.str " ,B", Val.num 0]]⟩

def rC6 : OutRow := ⟨" ", [Val.str "A"], 1, 0, ""⟩

def rC6b : OutRow := ⟨"B", [Val.str "A"], 1, 0, ""⟩

/-- C6 (counterexample): only exactly-empty split results are dropped: from
`Similar_Artists = " ,B"` the whitespace-only candidate `" "` survives all
filters and is emitted as a Missing_Artist. -/
theorem C6_counterexample :
    get_recommendations dfC6 = .ok [rC6, rC6b] ∧
      strTrim rC6.missing_artist = "" ∧ rC6.missing_artist ≠ "" := by
  refine ⟨?_, by decide, by decide⟩
  simp +decide [get_recommendations, ensureGenres, addEmptyGenres, selectCols,
    DataFrame.col?, zipRows, pipeline, candidatesOf, libraryArtistsOf,
    libraryCleanOf, dedupBy, dedupByAux, explodeRow, splitCommaWs,
    splitCommaWsAux, suggested_key, clean_key, trimWs, isWS, nonWordSpace,
    isWordChar, toPlays, parseVal, parseNum, digitsVal, fillGenres, scored,
    groupKeysOf, aggGroup, get_unique_genres, splitPlain, splitPlainAux,
    strTrim, joinSep, listCharLe, strLe, lowerLe, List.insertionSort,
    List.orderedInsert, scoreRel, scoreGeB, logGeB, scoreBase, Except.map,
    dfC6, rC6, rC6b]

/-- C6 (amended): the expansion filter discards precisely the null and the
exactly-empty split results, so every surviving candidate has a non-empty
name; it may however be whitespace-only or carry leading/trailing
whitespace (whitespace after a comma is consumed by the split pattern,
other whitespace is kept untrimmed). -/
theorem C6_amended (df : DataFrame) (c : CRow) (hc : c ∈ candidatesDF df) :
    c.name ≠ "" := by
  unfold candidatesDF at hc
  exact (mem_candidates_filter _ _ hc).2

def cW6 : CRow := ⟨" ", Val.str "A", 0, Val.str ""⟩

theorem cand_dfC6 : candidatesDF dfC6 = [cW6, ⟨"B", Val.str "A", 0, Val.str ""⟩] := by
  simp +decide [candidatesDF, selectedRows, ensureGenres, addEmptyGenres,
    selectCols, DataFrame.col?, zipRows, candidatesOf, libraryArtistsOf,
    libraryCleanOf, dedupBy, dedupByAux, explodeRow, splitCommaWs,
    splitCommaWsAux, suggested_key, clean_key, trimWs, isWS, nonWordSpace,
    isWordChar, toPlays, parseVal, parseNum, digitsVal, fillGenres, dfC6, cW6]

theorem C6_amended_witness : cW6.name ≠ "" :=
  C6_amended dfC6 cW6 (by rw [cand_dfC6]; exact List.mem_cons_self _ _)

def dfC7 : DataFrame :=
  ⟨["Artist", "Similar_Artists", "Total_Plays"],
   [[Val.str "A", Val.str "X, X", Val.num 1]]⟩

def rC7 : OutRow := ⟨"X", [Val.str "A"], 2, 2, ""⟩

/-- C7 (counterexample): `Similar_Artists = "X, X"` splits into two equal
entries, so the single LibraryArtist `A` (with `total_plays = 1`)
contributes two rows to group `X`: the count is 2, the distinct related
artists are just `[A]`, and the play sum 2 double-counts `A`'s plays. -/
theorem C7_counterexample :
    splitCommaWs ("X, X").data = ["X", "X"] ∧
      get_recommendations dfC7 = .ok [rC7] ∧
      rC7.recommendation_count = 2 ∧
      rC7.related_library_artists = [Val.str "A"] ∧
      rC7.related_total_plays = 2 := by
  refine ⟨by decide, ?_, by decide, by decide, by norm_num [rC7]⟩
  simp +decide [get_recommendations, ensureGenres, addEmptyGenres, selectCols,
    DataFrame.col?, zipRows, pipeline, candidatesOf, libraryArtistsOf,
    libraryCleanOf, dedupBy, dedupByAux, explodeRow, splitCommaWs,
    splitCommaWsAux, suggested_key, clean_key, trimWs, isWS, nonWordSpace,
    isWordChar, toPlays, parseVal, parseNum, digitsVal, fillGenres, scored,
    groupKeysOf, aggGroup, get_unique_genres, splitPlain, splitPlainAux,
    strTrim, joinSep, listCharLe, strLe, lowerLe, List.insertionSort,
    List.orderedInsert, scoreRel, scoreGeB, logGeB, scoreBase, Except.map,
    dfC7, rC7]
  norm_num [OutRow.mk.injEq]

/-- C7 (amended): split entries may repeat within a row, in which case the
same LibraryArtist contributes several rows to a group; each output group's
count and play sum range over the contributing candidate rows with
multiplicity (not over distinct library artists). -/
theorem C7_amended (df : DataFrame) (rows : List OutRow) (r : OutRow)
    (hok : get_recommendations df = .ok rows) (hr : r ∈ rows) :
    r.recommendation_count =
        ((candidatesDF df).filter fun c => c.name == r.missing_artist).length ∧
      r.related_total_plays =
        (((candidatesDF df).filter fun c => c.name == r.missing_artist).map
          fun c => c.plays).sum := by
  rw [run_ok_eq df rows hok] at hr
  simp only [pipeline] at hr
  rcases mem_scored _ _ hr with ⟨k, hk, he⟩
  subst he
  exact ⟨rfl, rfl⟩

theorem run_dfC7 : get_recommendations dfC7 = .ok [rC7] := by
  simp +decide [get_recommendations, ensureGenres, addEmptyGenres, selectCols,
    DataFrame.col?, zipRows, pipeline, candidatesOf, libraryArtistsOf,
    libraryCleanOf, dedupBy, dedupByAux, explodeRow, splitCommaWs,
    splitCommaWsAux, suggested_key, clean_key, trimWs, isWS, nonWordSpace,
    isWordChar, toPlays, parseVal, parseNum, digitsVal, fillGenres, scored,
    groupKeysOf, aggGroup, get_unique_genres, splitPlain, splitPlainAux,
    strTrim, joinSep, listCharLe, strLe, lowerLe, List.insertionSort,
    List.orderedInsert, scoreRel, scoreGeB, logGeB, scoreBase, Except.map,
    dfC7, rC7]
  norm_num [OutRow.mk.injEq]

theorem C7_amended_witness :
    rC7.recommendation_count =
        ((candidatesDF dfC7).filter fun c => c.name == rC7.missing_artist).length ∧
      rC7.related_total_plays =
        (((candidatesDF dfC7).filter fun c => c.name == rC7.missing_artist).map
          fun c => c.plays).sum :=
  C7_amended dfC7 [rC7] rC7 run_dfC7 (by decide)

theorem col?_none_iff (df : DataFrame) (n : String) :
    df.col? n = none ↔ n ∉ df.cols := by
  unfold DataFrame.col?
  cases h : df.cols.findIdx? (· == n) with
  | none =>
      rw [List.findIdx?_eq_none_iff] at h
      exact iff_of_true rfl fun hn => by simpa using h n hn
  | some i =>
      have hany : df.cols.any (· == n) = true := by
        rw [← List.findIdx?_isSome, h]
        rfl
      rcases List.any_eq_true.mp hany with ⟨x, hx, hxn⟩
      have hxn2 : x = n := by simpa using hxn
      subst hxn2
      exact iff_of_false (by simp) (by simp [hx])

theorem mem_of_col?_some (df : DataFrame) (n : String) (ls : List Val)
    (h : df.col? n = some ls) : n ∈ df.cols := by
  by_contra hn
  rw [(col?_none_iff df n).mpr hn] at h
  exact Option.noConfusion h

theorem mem_ensure_iff (df : DataFrame) (n : String) (hn : n ≠ "Artist_Genres") :
    n ∈ (ensureGenres df).cols ↔ n ∈ df.cols := by
  unfold ensureGenres
  split
  · exact Iff.rfl
  · simp [addEmptyGenres, hn]

/-- C8: the pipeline fails exactly when one of the required columns
`Artist`, `Similar_Artists`, `Total_Plays` is absent, and the error carries
the name of a missing required column; data-quality anomalies never raise
(they are inside the total `pipeline`), and a run with zero surviving
candidates still returns `.ok`. -/
theorem C8_structural_errors (df : DataFrame) :
    ((∃ rows, get_recommendations df = .ok rows) ↔
        ("Artist" ∈ df.cols ∧ "Similar_Artists" ∈ df.cols ∧ "Total_Plays" ∈ df.cols)) ∧
      ∀ e, get_recommendations df = .error e →
        e ∈ (["Artist", "Similar_Artists", "Total_Plays"] : List String) ∧ e ∉ df.cols := by
  have hA : ("Artist" : String) ≠ "Artist_Genres" := by decide
  have hS : ("Similar_Artists" : String) ≠ "Artist_Genres" := by decide
  have hT : ("Total_Plays" : String) ≠ "Artist_Genres" := by decide
  unfold get_recommendations selectCols
  cases hA2 : (ensureGenres df).col? "Artist" with
  | none =>
      have h2 : "Artist" ∉ df.cols :=
        fun hmem => (col?_none_iff _ _).mp hA2 ((mem_ensure_iff df _ hA).mpr hmem)
      constructor
      · constructor
        · rintro ⟨rows, hrows⟩
          simp [Except.map] at hrows
        · rintro ⟨hmem, -, -⟩
          exact absurd hmem h2
      · intro e he
        simp only [Except.map, Except.error.injEq] at he
        rw [← he]
        exact ⟨by simp, h2⟩
  | some as =>
      have hmA : "Artist" ∈ df.cols :=
        (mem_ensure_iff df _ hA).mp (mem_of_col?_some _ _ _ hA2)
      cases hS2 : (ensureGenres df).col? "Similar_Artists" with
      | none =>
          have h2 : "Similar_Artists" ∉ df.cols :=
            fun hmem => (col?_none_iff _ _).mp hS2 ((mem_ensure_iff df _ hS).mpr hmem)
          constructor
          · constructor
            · rintro ⟨rows, hrows⟩
              simp [Except.map] at hrows
            · rintro ⟨-, hmem, -⟩
              exact absurd hmem h2
          · intro e he
            simp only [Except.map, Except.error.injEq] at he
            rw [← he]
            exact ⟨by simp, h2⟩
      | some ss =>
          have hmS : "Similar_Artists" ∈ df.cols :=
            (mem_ensure_iff df _ hS).mp (mem_of_col?_some _ _ _ hS2)
          cases hT2 : (ensureGenres df).col? "Total_Plays" with
          | none =>
              have h2 : "Total_Plays" ∉ df.cols :=
                fun hmem => (col?_none_iff _ _).mp hT2 ((mem_ensure_iff df _ hT).mpr hmem)
              constructor
              · constructor
                · rintro ⟨rows, hrows⟩
                  simp [Except.map] at hrows
                · rintro ⟨-, -, hmem⟩
                  exact absurd hmem h2
              · intro e he
                simp only [Except.map, Except.error.injEq] at he
                rw [← he]
                exact ⟨by simp, h2⟩
          | some ps =>
              have hmT : "Total_Plays" ∈ df.cols :=
                (mem_ensure_iff df _ hT).mp (mem_of_col?_some _ _ _ hT2)
              cases hG2 : (ensureGenres df).col? "Artist_Genres" with
              | none =>
                  exfalso
                  have hg : "Artist_Genres" ∈ (ensureGenres df).cols := by
                    unfold ensureGenres
                    split
                    · assumption
                    · simp [addEmptyGenres]
                  exact (col?_none_iff _ _).mp hG2 hg
              | some gs =>
                  constructor
                  · exact iff_of_true ⟨_, rfl⟩ ⟨hmA, hmS, hmT⟩
                  · intro e he
                    simp [Except.map] at he

def dfW8 : DataFrame := ⟨["Artist", "Total_Plays"], [[Val.str "A", Val.num 1]]⟩

theorem run_dfW8 : get_recommendations dfW8 = .error "Similar_Artists" := by
  simp +decide [get_recommendations, ensureGenres, addEmptyGenres, selectCols,
    DataFrame.col?, Except.map, dfW8]

theorem C8_structural_errors_witness :
    ("Similar_Artists" ∈ (["Artist", "Similar_Artists", "Total_Plays"] : List String) ∧
        "Similar_Artists" ∉ dfW8.cols) ∧
      (∃ rows, get_recommendations dfW1 = .ok rows) :=
  ⟨(C8_structural_errors dfW8).2 "Similar_Artists" run_dfW8,
   (C8_structural_errors dfW1).1.mpr (by decide)⟩

/-- C9: the output rows are in non-increasing priority-score order: no row
is followed by a row of strictly greater score. -/
theorem C9_sorted_output (df : DataFrame) (rows : List OutRow)
    (hok : get_recommendations df = .ok rows) :
    rows.Pairwise fun a b => priorityScore b ≤ priorityScore a := by
  rw [run_ok_eq df rows hok]
  simp only [pipeline, scored]
  exact (List.sorted_insertionSort scoreRel _).imp fun h => (scoreRel_iff _ _).mp h

def dfC10 : DataFrame :=
  ⟨["Artist", "Similar_Artists", "Total_Plays"],
   [[Val.str "A", Val.str "X", Val.str "-0.5"],
    [Val.str "B", Val.str "Y", Val.str "-0.25"],
    [Val.str "C", Val.str "Y", Val.str "-0.25"]]⟩

def rX10 : OutRow := ⟨"X", [Val.str "A"], 1, -(1/2 : ℚ), ""⟩

def rY10 : OutRow := ⟨"Y", [Val.str "B", Val.str "C"], 2, -(1/2 : ℚ), ""⟩

theorem run_dfC10 : get_recommendations dfC10 = .ok [rX10, rY10] := by
  simp +decide [get_recommendations, ensureGenres, addEmptyGenres, selectCols,
    DataFrame.col?, zipRows, pipeline, candidatesOf, libraryArtistsOf,
    libraryCleanOf, dedupBy, dedupByAux, explodeRow, splitCommaWs,
    splitCommaWsAux, suggested_key, clean_key, trimWs, isWS, nonWordSpace,
    isWordChar, toPlays, parseVal, parseNum, digitsVal, fillGenres, scored,
    groupKeysOf, aggGroup, get_unique_genres, splitPlain, splitPlainAux,
    strTrim, joinSep, listCharLe, strLe, lowerLe, List.insertionSort,
    List.orderedInsert, scoreRel, scoreGeB, logGeB, scoreBase, Except.map,
    dfC10, rX10, rY10]
  norm_num [OutRow.mk.injEq, abs_of_nonneg]

theorem C9_sorted_output_witness :
    get_recommendations dfC10 = .ok [rX10, rY10] ∧
      ([rX10, rY10].Pairwise fun a b => priorityScore b ≤ priorityScore a) :=
  ⟨run_dfC10, C9_sorted_output dfC10 [rX10, rY10] run_dfC10⟩

/-- C10 (counterexample): with `total_plays` sums of `-1/2` (achievable from
raw values `"-0.5"`, `"-0.25"`), `log10(plays + 1) = log10(1/2) < 0`, so the
group corroborated by two artists scores strictly below the group
corroborated by one: the score is not monotone in the count. -/
theorem C10_counterexample :
    get_recommendations dfC10 = .ok [rX10, rY10] ∧
      rX10.related_total_plays = rY10.related_total_plays ∧
      rX10.recommendation_count < rY10.recommendation_count ∧
      priorityScore rY10 < priorityScore rX10 := by
  refine ⟨run_dfC10, by norm_num [rX10, rY10], by decide, ?_⟩
  have hc : ((-(1/2 : ℚ) : ℚ) : ℝ) + 1 = 1/2 := by norm_num
  show (rY10.recommendation_count : ℝ) * Real.logb 10 ((rY10.related_total_plays : ℝ) + 1) <
    (rX10.recommendation_count : ℝ) * Real.logb 10 ((rX10.related_total_plays : ℝ) + 1)
  simp only [rX10, rY10, hc]
  have hneg : Real.logb 10 ((1 : ℝ)/2) < 0 :=
    Real.logb_neg one_lt_ten (by norm_num) (by norm_num)
  push_cast
  linarith

/-- C10 (amended): the priority score is monotone in both the count and the
play sum on groups whose `related_total_plays` is non-negative (negative
sums, possible only from negative raw play counts, break monotonicity). -/
theorem C10_amended (r1 r2 : OutRow)
    (h0 : 0 ≤ r1.related_total_plays)
    (hp : r1.related_total_plays ≤ r2.related_total_plays)
    (hc : r1.recommendation_count ≤ r2.recommendation_count) :
    priorityScore r1 ≤ priorityScore r2 := by
  unfold priorityScore
  have h0r : (1 : ℝ) ≤ (r1.related_total_plays : ℝ) + 1 := by
    have : (0 : ℝ) ≤ (r1.related_total_plays : ℝ) := by exact_mod_cast h0
    linarith
  have hpr : ((r1.related_total_plays : ℝ)) + 1 ≤ (r2.related_total_plays : ℝ) + 1 := by
    have : ((r1.related_total_plays : ℝ)) ≤ (r2.related_total_plays : ℝ) := by
      exact_mod_cast hp
    linarith
  have h1 : (0 : ℝ) ≤ Real.logb 10 ((r1.related_total_plays : ℝ) + 1) :=
    Real.logb_nonneg one_lt_ten h0r
  have h2 : Real.logb 10 ((r1.related_total_plays : ℝ) + 1) ≤
      Real.logb 10 ((r2.related_total_plays : ℝ) + 1) :=
    Real.logb_le_logb_of_le one_lt_ten (by linarith) hpr
  have hcc : ((r1.recommendation_count : ℝ)) ≤ (r2.recommendation_count : ℝ) := by
    exact_mod_cast hc
  exact mul_le_mul hcc h2 h1 (Nat.cast_nonneg _)

def rW10a : OutRow := ⟨"X", [], 1, 1, ""⟩

def rW10b : OutRow := ⟨"Y", [], 2, 3, ""⟩

theorem C10_amended_witness : priorityScore rW10a ≤ priorityScore rW10b :=
  C10_amended rW10a rW10b (by norm_num [rW10a]) (by norm_num [rW10a, rW10b])
    (by norm_num [rW10a, rW10b])

end Plex
